import Mathlib

/-!
Verification of the CSV lead-import pipeline of the salesagent repository.

The embedding models `parseCSV` and `handleFileUpload` from the campaign-edit
screen (src/unnamed/part_000, lines 107-256).  JavaScript strings are modelled
as `List Char`; the JavaScript string primitives used by the source
(`split` on a one-character separator, `trim`, `toLowerCase`,
`replace(/"/g, '')`, truthiness of `undefined`/`null`/`""`) are given direct
recursive definitions.  The persistence layer (a remote table insert) and the
automation webhook (an HTTP POST) are external collaborators; one import
attempt is modelled as a function of the text plus the responses those two
collaborators would give, and the resulting trace records whether each
collaborator was actually contacted.
-/

namespace SalesAgent

/-- Strings of the modelled program, as lists of characters. -/
abbrev Str := List Char

/-- Accumulator pass for `jsSplit`: scan the characters, cutting at each
separator occurrence. -/
def splitAux (sep : Char) : Str → Str → List Str
  | [], acc => [acc.reverse]
  | c :: cs, acc =>
    if c = sep then acc.reverse :: splitAux sep cs []
    else splitAux sep cs (c :: acc)

/-- JavaScript `String.prototype.split` with a one-character separator:
always returns at least one piece, and a separator at either end contributes
an empty piece (`",".split(",")` gives two empty strings). -/
def jsSplit (sep : Char) (s : Str) : List Str := splitAux sep s []

/-- JavaScript `String.prototype.trim`: drop whitespace from both ends. -/
def jsTrim (s : Str) : Str :=
  ((s.dropWhile Char.isWhitespace).reverse.dropWhile Char.isWhitespace).reverse

/-- JavaScript `replace(/"/g, '')`: remove every double-quote character. -/
def stripQuotes (s : Str) : Str := s.filter (fun c => c != '"')

/-- JavaScript `String.prototype.toLowerCase`, on the basic-latin range used
by the alias table. -/
def jsToLower (s : Str) : Str := s.map Char.toLower

/-- Header normalization from line 111 of the source:
`h.trim().toLowerCase().replace(/"/g, '')`. -/
def normalizeHeader (h : Str) : Str := stripQuotes (jsToLower (jsTrim h))

/-- Cell normalization from line 116 of the source:
`v.trim().replace(/"/g, '')`. -/
def normalizeCell (v : Str) : Str := stripQuotes (jsTrim v)

/-- Canonical lead fields a header can resolve to. -/
inductive Field
  | name
  | phone
  | email
  | company_name
  | job_title
  | source_url
  | source_platform
deriving DecidableEq

/-- One parsed lead candidate; every field starts out `none` (the source
builds `const lead: any = {}` and only assigns matched columns). -/
structure Lead where
  name : Option Str := none
  phone : Option Str := none
  email : Option Str := none
  company_name : Option Str := none
  job_title : Option Str := none
  source_url : Option Str := none
  source_platform : Option Str := none
deriving DecidableEq

/-- Alias table of the `switch (header)` statement (lines 121-156): maps an
already-normalized header token to its canonical field, unknown tokens to
`none`. -/
def matchAlias (h : Str) : Option Field :=
  if h = "name".data ∨ h = "full_name".data ∨ h = "first_name".data then some .name
  else if h = "phone".data ∨ h = "phone_number".data ∨ h = "mobile".data then some .phone
  else if h = "email".data ∨ h = "email_address".data then some .email
  else if h = "company_name".data ∨ h = "company".data ∨ h = "organization".data then some .company_name
  else if h = "job_title".data ∨ h = "title".data ∨ h = "position".data then some .job_title
  else if h = "source_url".data ∨ h = "url".data ∨ h = "website".data then some .source_url
  else if h = "source_platform".data ∨ h = "platform".data ∨ h = "source".data then some .source_platform
  else none

/-- Assignment `lead.<field> = value` for one resolved column. -/
def assignField (l : Lead) : Field → Option Str → Lead
  | .name, v => { l with name := v }
  | .phone, v => { l with phone := v }
  | .email, v => { l with email := v }
  | .company_name, v => { l with company_name := v }
  | .job_title, v => { l with job_title := v }
  | .source_url, v => { l with source_url := v }
  | .source_platform, v => { l with source_platform := v }

/-- Projection of one canonical field out of a lead candidate. -/
def getField : Field → Lead → Option Str
  | .name, l => l.name
  | .phone, l => l.phone
  | .email, l => l.email
  | .company_name, l => l.company_name
  | .job_title, l => l.job_title
  | .source_url, l => l.source_url
  | .source_platform, l => l.source_platform

/-- Cell lookup `values[index] || null` (line 120): a missing trailing column
(`undefined`) and an empty string are both replaced by `null`. -/
def cellValue (values : List Str) (i : Nat) : Option Str :=
  match values[i]? with
  | none => none
  | some v => if v.isEmpty then none else some v

/-- The `headers.forEach((header, index) => ...)` loop (lines 119-157):
walk the normalized headers left to right, assigning each resolved column's
cell value unconditionally. -/
def buildLeadAux (values : List Str) : List Str → Nat → Lead → Lead
  | [], _, l => l
  | h :: hs, i, l =>
    let l2 :=
      match matchAlias h with
      | some f => assignField l f (cellValue values i)
      | none => l
    buildLeadAux values hs (i + 1) l2

/-- Build one lead candidate from the normalized header row and the
normalized cells of one data row. -/
def buildLead (headers values : List Str) : Lead := buildLeadAux values headers 0 {}

/-- Normalized cells of one data line (line 116):
`lines[i].split(',').map(v => v.trim().replace(/"/g, ''))`. -/
def rowValues (line : Str) : List Str := (jsSplit ',' line).map normalizeCell

/-- The lead candidate built from one data line. -/
def rowLead (headers : List Str) (line : Str) : Lead := buildLead headers (rowValues line)

/-- JavaScript truthiness of an optional string: `null` and `""` are falsy. -/
def truthy : Option Str → Bool
  | none => false
  | some s => !s.isEmpty

/-- Row-acceptance test of line 159: `lead.name || lead.phone || lead.email`. -/
def isValidLead (l : Lead) : Bool := truthy l.name || truthy l.phone || truthy l.email

/-- Decimal rendering of a row number, as JavaScript template interpolation
of an integer produces. -/
def natStr (n : Nat) : Str := (Nat.repr n).data

/-- Diagnostic text of line 162 for one rejected row. -/
def rowErrorMsg (n : Nat) : Str :=
  "Row ".data ++ natStr n ++ ": Missing required data (name, phone, or email)".data

/-- Result of `parseCSV`: the source returns the bare array `[]` when fewer
than two non-blank lines remain (line 109), and otherwise the object
`{ leads, errors }` (line 166).  The two shapes are distinct values. -/
inductive ParseResult
  | emptyArr
  | ok (leads : List Lead) (errors : List Str)
deriving DecidableEq

/-- Line filtering of line 108: split the text on newline and keep the lines
that are non-empty after trimming. -/
def retainedLines (csvText : Str) : List Str :=
  (jsSplit '\n' csvText).filter (fun l => !(jsTrim l).isEmpty)

/-- Normalized header row of line 111. -/
def parseHeaders (l0 : Str) : List Str := (jsSplit ',' l0).map normalizeHeader

/-- The `for (let i = 1; i < lines.length; i++)` loop (lines 115-164):
`rowNum` is `i + 1`, the 1-based position of the line among the retained
lines, counting the header as line 1. -/
def processRows (headers : List Str) : List Str → Nat → List Lead × List Str
  | [], _ => ([], [])
  | line :: rest, rowNum =>
    let lead := rowLead headers line
    let r := processRows headers rest (rowNum + 1)
    if isValidLead lead then (lead :: r.1, r.2)
    else (r.1, rowErrorMsg rowNum :: r.2)

/-- The whole of `parseCSV` (lines 107-167). -/
def parseCSV (csvText : Str) : ParseResult :=
  match retainedLines csvText with
  | l0 :: l1 :: rest =>
    let r := processRows (parseHeaders l0) (l1 :: rest) 2
    .ok r.1 r.2
  | _ => .emptyArr

/-- Behaviour of the automation webhook call on one attempt: either `fetch`
resolved with some HTTP status, or it threw and the catch extracted a
message (`'Unknown error'` when the thrown value was not an `Error`). -/
inductive WebhookOutcome
  | responded (status : Nat)
  | threw (msg : Str)
deriving DecidableEq

/-- Meaning of `Response.ok` in the fetch API: status in the range 200-299. -/
def statusOk (s : Nat) : Bool := 200 ≤ s && s ≤ 299

/-- Value of the `webhookSuccess` flag (lines 211-232). -/
def webhookOk : WebhookOutcome → Bool
  | .responded s => statusOk s
  | .threw _ => false

/-- Value of the `webhookError` variable (lines 212-232): `null` on success,
otherwise the status text or the caught message. -/
def webhookErrText : WebhookOutcome → Option Str
  | .responded s =>
    if statusOk s then none else some ("Webhook failed with status: ".data ++ natStr s)
  | .threw m => some ("Webhook error: ".data ++ m)

/-- JavaScript `a || b` on an optional string: `null` and `""` fall through
to the default. -/
def jsOrElse (o : Option Str) (d : Str) : Str :=
  match o with
  | some s => if s.isEmpty then d else s
  | none => d

/-- One row of the batch handed to the lead store (lines 189-200). -/
structure InsertedLead where
  user_id : Str
  campaign_id : Str
  name : Option Str
  phone : Option Str
  email : Option Str
  company_name : Option Str
  job_title : Option Str
  source_url : Option Str
  source_platform : Option Str
  status : Str
deriving DecidableEq

/-- The per-lead object of the `leads.map(lead => ...)` at line 189. -/
def tagLead (uid cid : Str) (l : Lead) : InsertedLead :=
  { user_id := uid
    campaign_id := cid
    name := l.name
    phone := l.phone
    email := l.email
    company_name := l.company_name
    job_title := l.job_title
    source_url := l.source_url
    source_platform := l.source_platform
    status := "pending".data }

/-- The `UploadResult` interface (lines 17-22). -/
structure UploadResult where
  success : Bool
  message : Str
  leadsCount : Option Nat
  errors : Option (List Str)
deriving DecidableEq

/-- Observable outcome of one `handleFileUpload` run: the result shown to the
user, whether the lead-store insert was attempted and with which batch, and
whether the webhook was contacted. -/
structure UploadTrace where
  result : UploadResult
  dbCalled : Bool
  insertedBatch : Option (List InsertedLead)
  webhookCalled : Bool
deriving DecidableEq

/-- Message of the TypeError raised when `leads.length` is read off the
`undefined` produced by destructuring the bare array `[]`; the exact text is
engine specific and no claim depends on it. -/
def typeErrorText : Str := "Cannot read properties of undefined".data

/-- The whole of `handleFileUpload` (lines 169-256), as a function of the
file text and of the responses the two external collaborators would give.
`dbError` is the error the lead-store insert returns (`none` for success);
`wh` is how the webhook call behaves if reached.  When `parseCSV` returns the
bare array, the destructuring `const { leads, errors } = ...` yields
`undefined` for both names and `leads.length` throws; the surrounding
`catch` turns that into the generic failure result of lines 248-252. -/
def handleFileUpload (uid cid csvText : Str) (dbError : Option Str) (wh : WebhookOutcome) :
    UploadTrace :=
  match parseCSV csvText with
  | .emptyArr =>
    { result :=
        { success := false
          message := "Failed to upload leads to database.".data
          leadsCount := none
          errors := some [typeErrorText] }
      dbCalled := false
      insertedBatch := none
      webhookCalled := false }
  | .ok leads errors =>
    if leads.length = 0 then
      { result :=
          { success := false
            message := "No valid leads found in CSV file.".data
            leadsCount := none
            errors := some ("Please ensure your CSV has columns for name, phone, or email".data :: errors) }
        dbCalled := false
        insertedBatch := none
        webhookCalled := false }
    else
      let batch := leads.map (tagLead uid cid)
      match dbError with
      | some msg =>
        { result :=
            { success := false
              message := "Failed to upload leads to database.".data
              leadsCount := none
              errors := some ["Database error: ".data ++ msg] }
          dbCalled := true
          insertedBatch := some batch
          webhookCalled := false }
      | none =>
        { result :=
            { success := true
              message := "Successfully uploaded ".data ++ natStr leads.length
                ++ " leads to the database!".data
              leadsCount := some leads.length
              errors := some
                (if webhookOk wh then []
                 else ["Note: Leads saved to database successfully, but automation webhook failed.".data,
                       jsOrElse (webhookErrText wh) "Webhook connection failed".data]) }
          dbCalled := true
          insertedBatch := some batch
          webhookCalled := true }

/-- Index (from `i`) of the last header in `hs` that resolves to field `f`,
if any. -/
def lastMatchFrom (f : Field) : List Str → Nat → Option Nat
  | [], _ => none
  | h :: hs, i =>
    match lastMatchFrom f hs (i + 1) with
    | some j => some j
    | none => if matchAlias h = some f then some i else none

/-- Header resolution as a single function: normalize, then consult the alias
table.  This composes the map at line 111 with the switch at line 121. -/
def resolveHeader (h : Str) : Option Field := matchAlias (normalizeHeader h)

/-- Closed form of the row loop: the accepted leads are exactly the valid
candidates in order, and the diagnostics are exactly one `rowErrorMsg` per
invalid candidate, numbered from the loop's starting row number. -/
theorem processRows_eq (headers : List Str) (ds : List Str) (n : Nat) :
    processRows headers ds n =
      ((ds.map (rowLead headers)).filter isValidLead,
       (List.enumFrom n ds).filterMap fun p =>
         if isValidLead (rowLead headers p.2) then none else some (rowErrorMsg p.1)) := by
  induction ds generalizing n with
  | nil => rfl
  | cons d ds ih =>
    simp only [processRows, ih, List.map_cons, List.filter_cons, List.enumFrom,
      List.filterMap_cons]
    by_cases hv : isValidLead (rowLead headers d) <;> simp [hv]

/-- Every data row contributes to exactly one side: accepted leads plus
diagnostics account for all rows. -/
theorem processRows_length (headers : List Str) (ds : List Str) (n : Nat) :
    (processRows headers ds n).1.length + (processRows headers ds n).2.length = ds.length := by
  induction ds generalizing n with
  | nil => rfl
  | cons d ds ih =>
    have h2 := ih (n + 1)
    simp only [processRows]
    by_cases hv : isValidLead (rowLead headers d) <;>
      simp [hv, List.length_cons] <;> omega

/-- Reading a field after assigning one: the assigned field holds the new
value, all other fields are untouched. -/
theorem getField_assignField (f g : Field) (l : Lead) (v : Option Str) :
    getField f (assignField l g v) = if g = f then v else getField f l := by
  cases f <;> cases g <;> simp [getField, assignField]

/-- The header loop implements last-write-wins: after the loop, a field holds
the cell of the last column whose header resolved to it, and is untouched
when no header resolved to it. -/
theorem getField_buildLeadAux (f : Field) (values : List Str) (hs : List Str) (i : Nat)
    (l : Lead) :
    getField f (buildLeadAux values hs i l) =
      match lastMatchFrom f hs i with
      | some j => cellValue values j
      | none => getField f l := by
  induction hs generalizing i l with
  | nil => rfl
  | cons h hs ih =>
    simp only [buildLeadAux, lastMatchFrom]
    cases hm : matchAlias h with
    | none =>
      rw [ih]
      cases lastMatchFrom f hs (i + 1) with
      | some j => rfl
      | none => simp [hm]
    | some g =>
      rw [ih]
      cases lastMatchFrom f hs (i + 1) with
      | some j => rfl
      | none =>
        simp only [hm, getField_assignField, Option.some.injEq]
        by_cases hgf : g = f <;> simp [hgf]

/-- The empty candidate has every field unset. -/
theorem getField_default (f : Field) : getField f {} = none := by
  cases f <;> rfl

/-- Lower-casing an upper-case latin letter never yields a double quote. -/
theorem ofNat_shift_ne_quote :
    ∀ n : Nat, n < 91 → 65 ≤ n → Char.ofNat (n + 32) ≠ '"' := by decide

/-- Lower-casing fixes the double-quote character and maps no other
character to it. -/
theorem toLower_eq_quote_iff (c : Char) : Char.toLower c = '"' ↔ c = '"' := by
  constructor
  · intro h
    by_contra hc
    simp only [Char.toLower] at h
    split at h
    · next hcond => exact ofNat_shift_ne_quote c.toNat (by omega) (by omega) h
    · exact hc h
  · intro h
    subst h
    decide

/-- Quote-stripping and lower-casing commute, character-list-wise. -/
theorem stripQuotes_jsToLower_comm (s : Str) :
    stripQuotes (jsToLower s) = jsToLower (stripQuotes s) := by
  induction s with
  | nil => rfl
  | cons c cs ih =>
    simp only [stripQuotes, jsToLower, List.map_cons, List.filter_cons]
    by_cases hc : c = '"'
    · subst hc
      simpa [stripQuotes, jsToLower] using ih
    · have h1 : Char.toLower c ≠ '"' := fun h => hc ((toLower_eq_quote_iff c).mp h)
      simp only [bne_iff_ne, ne_eq, h1, hc, if_true, List.map_cons]
      simpa [stripQuotes, jsToLower] using congrArg (List.cons (Char.toLower c)) ih

/-- Fewer than two retained lines: the parser returns the bare empty array. -/
theorem parseCSV_short (text : Str)
    (h : retainedLines text = [] ∨ ∃ l0, retainedLines text = [l0]) :
    parseCSV text = ParseResult.emptyArr := by
  unfold parseCSV
  rcases h with h | ⟨l0, h⟩ <;> rw [h]

/-- Closed form of the parser on an input with a header line and at least one
data line: accepted leads are the valid row candidates, diagnostics are one
per invalid row, numbered by the position of the row among retained lines
(header is line 1, first data row line 2). -/
theorem parseCSV_char (text l0 l1 : Str) (rest : List Str)
    (h : retainedLines text = l0 :: l1 :: rest) :
    parseCSV text =
      ParseResult.ok
        (((l1 :: rest).map (rowLead (parseHeaders l0))).filter isValidLead)
        ((List.enumFrom 2 (l1 :: rest)).filterMap fun p =>
          if isValidLead (rowLead (parseHeaders l0) p.2) then none
          else some (rowErrorMsg p.1)) := by
  unfold parseCSV
  rw [h]
  simp [processRows_eq]

/-- Every lead the parser accepts passes the row-acceptance test. -/
theorem parseCSV_leads_valid (text : Str) (leads : List Lead) (errors : List Str)
    (hp : parseCSV text = ParseResult.ok leads errors) :
    ∀ l ∈ leads, isValidLead l = true := by
  cases hr : retainedLines text with
  | nil =>
    rw [parseCSV_short text (Or.inl hr)] at hp
    exact absurd hp (by simp)
  | cons l0 rest1 =>
    cases rest1 with
    | nil =>
      rw [parseCSV_short text (Or.inr ⟨l0, hr⟩)] at hp
      exact absurd hp (by simp)
    | cons l1 rest =>
      rw [parseCSV_char text l0 l1 rest hr] at hp
      injection hp with h1 h2
      intro l hl
      rw [← h1] at hl
      exact (List.mem_filter.mp hl).2

/-- Whenever the orchestrator hands a batch to the lead store, that batch is
exactly the parsed leads, each tagged by `tagLead`. -/
theorem insertedBatch_shape (uid cid text : Str) (dbError : Option Str) (wh : WebhookOutcome)
    (batch : List InsertedLead)
    (hb : (handleFileUpload uid cid text dbError wh).insertedBatch = some batch) :
    ∃ leads errors, parseCSV text = ParseResult.ok leads errors ∧
      batch = leads.map (tagLead uid cid) := by
  cases hp : parseCSV text with
  | emptyArr => simp [handleFileUpload, hp] at hb
  | ok leads errors =>
    by_cases hl : leads.length = 0
    · simp [handleFileUpload, hp, hl] at hb
    · cases dbError with
      | some msg =>
        simp only [handleFileUpload, hp, if_neg hl] at hb
        exact ⟨leads, errors, rfl, (Option.some.inj hb).symm⟩
      | none =>
        simp only [handleFileUpload, hp, if_neg hl] at hb
        exact ⟨leads, errors, rfl, (Option.some.inj hb).symm⟩

/-- C1: on an input with fewer than two non-blank lines (here the single
header line "name") the parser returns the bare empty array rather than an
empty records/diagnostics object, so the orchestrator — after the resulting
TypeError on `leads.length` is caught — reports the generic persistence
failure message "Failed to upload leads to database." instead of "No valid
leads found in CSV file.".  It does, as the claim says, never contact the
persistence layer or the webhook. -/
theorem C1_no_input_behavior :
    parseCSV "name".data = ParseResult.emptyArr ∧
    (∀ leads errors, parseCSV "name".data ≠ ParseResult.ok leads errors) ∧
    (∀ uid cid dbError wh,
      (handleFileUpload uid cid "name".data dbError wh).dbCalled = false ∧
      (handleFileUpload uid cid "name".data dbError wh).insertedBatch = none ∧
      (handleFileUpload uid cid "name".data dbError wh).webhookCalled = false ∧
      (handleFileUpload uid cid "name".data dbError wh).result.success = false ∧
      (handleFileUpload uid cid "name".data dbError wh).result.message =
        "Failed to upload leads to database.".data) ∧
    ("Failed to upload leads to database.".data : Str) ≠
      "No valid leads found in CSV file.".data := by
  refine ⟨by decide, ?_, ?_, by decide⟩
  · intro leads errors h
    rw [show parseCSV "name".data = ParseResult.emptyArr from by decide] at h
    exact ParseResult.noConfusion h
  · intro uid cid dbError wh
    exact ⟨rfl, rfl, rfl, rfl, rfl⟩

/-- C4 counterexample: in the file "name\n\n," the invalid data row "," is
the third line of the original file, but the diagnostic names row 2 — the
row's position among the retained (non-blank) lines, not its position in the
original file.  The claim's "counts from the original file" numbering would
have produced the distinct string "Row 3: ...". -/
theorem C4_counterexample :
    parseCSV "name\n\n,".data =
      ParseResult.ok [] ["Row 2: Missing required data (name, phone, or email)".data] ∧
    ("Row 2: Missing required data (name, phone, or email)".data : Str) ≠
      "Row 3: Missing required data (name, phone, or email)".data := by decide

/-- C4 (amended): each invalid row's diagnostic is
"Row n: Missing required data (name, phone, or email)" where n is the 1-based
position of the row among the lines retained after blank-line filtering, the
header counting as line 1 (so the first retained data row is line 2); this
coincides with the original-file position only when no blank line precedes
the row.  For "name\nAlice\n,\nBob" (no line is blank after trimming, since
"," trims to itself) the empty conceptual row is retained line 3 and the
diagnostic says "Row 3". -/
theorem C4_line_numbering (text l0 l1 : Str) (rest : List Str)
    (h : retainedLines text = l0 :: l1 :: rest) :
    parseCSV text =
      ParseResult.ok
        (((l1 :: rest).map (rowLead (parseHeaders l0))).filter isValidLead)
        ((List.enumFrom 2 (l1 :: rest)).filterMap fun p =>
          if isValidLead (rowLead (parseHeaders l0) p.2) then none
          else some (rowErrorMsg p.1)) ∧
    parseCSV "name\nAlice\n,\nBob".data =
      ParseResult.ok [{ name := some "Alice".data }, { name := some "Bob".data }]
        ["Row 3: Missing required data (name, phone, or email)".data] :=
  ⟨parseCSV_char text l0 l1 rest h, by decide⟩

/-- C4 witness: the amended numbering theorem applied to the concrete file
"name\n\n,", whose retained lines are ["name", ","]. -/
theorem C4_line_numbering_witness :
    parseCSV "name\n\n,".data =
      ParseResult.ok
        (([",".data].map (rowLead (parseHeaders "name".data))).filter isValidLead)
        ((List.enumFrom 2 [",".data]).filterMap fun p =>
          if isValidLead (rowLead (parseHeaders "name".data) p.2) then none
          else some (rowErrorMsg p.1)) ∧
    parseCSV "name\nAlice\n,\nBob".data =
      ParseResult.ok [{ name := some "Alice".data }, { name := some "Bob".data }]
        ["Row 3: Missing required data (name, phone, or email)".data] :=
  C4_line_numbering "name\n\n,".data "name".data ",".data [] (by decide)

/-- C7: header resolution normalizes by trimming surrounding whitespace,
stripping all double quotes and lower-casing — the source applies trim, then
toLowerCase, then quote-stripping, and the last two commute — and the three
spellings of the full-name header all resolve to the canonical name field. -/
theorem C7_header_normalization :
    (∀ h, normalizeHeader h = jsToLower (stripQuotes (jsTrim h))) ∧
    (∀ h, resolveHeader h = matchAlias (jsToLower (stripQuotes (jsTrim h)))) ∧
    resolveHeader "\"Full_Name\"".data = some Field.name ∧
    resolveHeader "full_name".data = some Field.name ∧
    resolveHeader "FULL_NAME".data = some Field.name := by
  have hn : ∀ h, normalizeHeader h = jsToLower (stripQuotes (jsTrim h)) := fun h => by
    rw [normalizeHeader, stripQuotes_jsToLower_comm]
  exact ⟨hn, fun h => by rw [resolveHeader, hn], by decide, by decide, by decide⟩

/-- C8: the header loop assigns in header order and each match assigns
unconditionally, so a field ends up holding the cell of the last column whose
header resolved to it (later column index overwrites earlier), and a header
the alias table does not know leaves the candidate untouched.  Concretely,
with duplicate headers "name,full_name" the row "Alice,Bob" yields name
"Bob", and an unknown header is silently ignored. -/
theorem C8_duplicate_headers :
    (∀ f headers values,
      getField f (buildLead headers values) =
        match lastMatchFrom f headers 0 with
        | some j => cellValue values j
        | none => none) ∧
    (∀ values hs i l h, matchAlias h = none →
      buildLeadAux values (h :: hs) i l = buildLeadAux values hs (i + 1) l) ∧
    parseCSV "name,full_name\nAlice,Bob".data =
      ParseResult.ok [{ name := some "Bob".data }] [] ∧
    matchAlias (normalizeHeader "unknown_header".data) = none ∧
    parseCSV "name,unknown_header\nAlice,Bob".data =
      ParseResult.ok [{ name := some "Alice".data }] [] := by
  refine ⟨?_, ?_, by decide, by decide, by decide⟩
  · intro f headers values
    rw [buildLead, getField_buildLeadAux]
    cases lastMatchFrom f headers 0 with
    | some j => rfl
    | none => exact getField_default f
  · intro values hs i l h hm
    simp [buildLeadAux, hm]

/-- C8 witness: the unknown-header conjunct applied to the concrete header
"unknown_header", which the alias table does not know. -/
theorem C8_duplicate_headers_witness :
    buildLeadAux [] ["unknown_header".data] 0 {} = buildLeadAux [] [] 1 {} :=
  C8_duplicate_headers.2.1 [] [] 0 {} "unknown_header".data (by decide)

/-- C10 counterexample: the cell written `" "` in the file (a double quote, a
space, a double quote) trims to itself — the quotes shield the space — and
then quote-stripping leaves the single-space string, so the company_name
field is the non-null string " " with leading and trailing whitespace,
although the cell consists of whitespace and quotes only. -/
theorem C10_counterexample :
    parseCSV "name,company_name\nAlice,\" \"".data =
      ParseResult.ok [{ name := some "Alice".data, company_name := some [' '] }] [] ∧
    (some [' '] : Option Str) ≠ none ∧
    Char.isWhitespace ' ' = true := by decide

/-- C10 (amended): every field of a parsed record is either null or a
non-empty string containing no double-quote character; a missing trailing
column yields null, and a cell that trims to the empty string (empty or
all-whitespace) yields null, exactly like a missing column — but because
trimming precedes quote-stripping, a cell whose double quotes surround
whitespace keeps that whitespace, so a field value can carry leading or
trailing whitespace.  An all-quotes cell also yields null. -/
theorem C10_field_shape :
    (∀ headers line f,
      getField f (rowLead headers line) = none ∨
      ∃ s, getField f (rowLead headers line) = some s ∧ s ≠ [] ∧ ∀ c ∈ s, c ≠ '"') ∧
    (∀ values i, values[i]? = none → cellValue values i = none) ∧
    (∀ v, jsTrim v = [] → normalizeCell v = []) ∧
    parseCSV "name,company_name\nAlice,".data =
      ParseResult.ok [{ name := some "Alice".data }] [] ∧
    parseCSV "name,company_name\nAlice,\"\"".data =
      ParseResult.ok [{ name := some "Alice".data }] [] := by
  refine ⟨?_, ?_, ?_, by decide, by decide⟩
  · intro headers line f
    rw [rowLead, buildLead, getField_buildLeadAux]
    cases lastMatchFrom f headers 0 with
    | none => exact Or.inl (getField_default f)
    | some j =>
      simp only [cellValue]
      cases hv : (rowValues line)[j]? with
      | none => exact Or.inl rfl
      | some v =>
        by_cases hemp : v.isEmpty
        · simp [hemp]
        · refine Or.inr ⟨v, by simp [hemp], ?_, ?_⟩
          · intro hnil
            exact hemp (by simp [hnil])
          · intro c hc
            have hmem : ∃ cell, (jsSplit ',' line)[j]? = some cell ∧ normalizeCell cell = v := by
              rw [rowValues, List.getElem?_map] at hv
              cases hcell : (jsSplit ',' line)[j]? with
              | none => rw [hcell] at hv; exact absurd hv (by simp)
              | some cell =>
                rw [hcell] at hv
                exact ⟨cell, rfl, by simpa using hv⟩
            obtain ⟨cell, _, hcv⟩ := hmem
            rw [← hcv, normalizeCell, stripQuotes] at hc
            have := (List.mem_filter.mp hc).2
            simpa using this
  · intro values i h
    simp [cellValue, h]
  · intro v h
    rw [normalizeCell, h]
    rfl

/-- C10 witness for the conditional conjuncts: a missing trailing column and
an all-whitespace cell both normalize to the absent value. -/
theorem C10_field_shape_witness :
    cellValue [] 0 = none ∧ normalizeCell [' '] = [] :=
  ⟨C10_field_shape.2.1 [] 0 (by decide), C10_field_shape.2.2.1 [' '] (by decide)⟩

/-- C2: once the parse produced a non-empty lead list, a successful insert
makes the attempt succeed no matter how the webhook behaves — the success
flag is true, the message carries the saved-lead count, and a failing
webhook only appends the two informational diagnostics — while a failing
insert stops the attempt before the webhook is ever contacted and the
outcome is a failure. -/
theorem C2_notification_independence (uid cid text : Str) (wh : WebhookOutcome)
    (leads : List Lead) (errors : List Str) (dmsg : Str)
    (hp : parseCSV text = ParseResult.ok leads errors) (hn : ¬ leads.length = 0) :
    ((handleFileUpload uid cid text none wh).result.success = true ∧
     (handleFileUpload uid cid text none wh).dbCalled = true ∧
     (handleFileUpload uid cid text none wh).webhookCalled = true ∧
     (handleFileUpload uid cid text none wh).result.message =
       "Successfully uploaded ".data ++ natStr leads.length ++ " leads to the database!".data ∧
     (handleFileUpload uid cid text none wh).result.leadsCount = some leads.length ∧
     (webhookOk wh = false →
       (handleFileUpload uid cid text none wh).result.errors =
         some ["Note: Leads saved to database successfully, but automation webhook failed.".data,
               jsOrElse (webhookErrText wh) "Webhook connection failed".data]) ∧
     (webhookOk wh = true →
       (handleFileUpload uid cid text none wh).result.errors = some [])) ∧
    ((handleFileUpload uid cid text (some dmsg) wh).webhookCalled = false ∧
     (handleFileUpload uid cid text (some dmsg) wh).dbCalled = true ∧
     (handleFileUpload uid cid text (some dmsg) wh).result.success = false ∧
     (handleFileUpload uid cid text (some dmsg) wh).result.message =
       "Failed to upload leads to database.".data) := by
  constructor
  · refine ⟨?_, ?_, ?_, ?_, ?_, ?_, ?_⟩ <;>
      simp only [handleFileUpload, hp, if_neg hn] <;>
      first
        | rfl
        | (intro hw; simp [hw])
  · refine ⟨?_, ?_, ?_, ?_⟩ <;> simp only [handleFileUpload, hp, if_neg hn]

/-- C2 witness: the file "name\nAlice" parses to one lead; with a successful
insert and a webhook answering HTTP 500 the attempt still succeeds, and with
a failing insert the webhook is not contacted. -/
theorem C2_notification_independence_witness :
    (handleFileUpload "u".data "c".data "name\nAlice".data none
        (WebhookOutcome.responded 500)).result.success = true ∧
    (handleFileUpload "u".data "c".data "name\nAlice".data (some "boom".data)
        (WebhookOutcome.responded 500)).webhookCalled = false :=
  ⟨(C2_notification_independence "u".data "c".data "name\nAlice".data (.responded 500)
      [{ name := some "Alice".data }] [] "boom".data (by decide) (by decide)).1.1,
   (C2_notification_independence "u".data "c".data "name\nAlice".data (.responded 500)
      [{ name := some "Alice".data }] [] "boom".data (by decide) (by decide)).2.1⟩

/-- C3: the row loop accepts a row exactly when the built candidate has at
least one of name/phone/email non-empty after trimming and quote-stripping
(the acceptance test `lead.name || lead.phone || lead.email` on fields that
hold the normalized cells), each rejected row yields exactly one diagnostic
naming its row, any batch handed to the store consists of accepted (valid)
records only, a row with only company_name populated is rejected, and a row
with only phone populated is accepted. -/
theorem C3_minimum_field_invariant :
    (∀ headers ds n,
      (processRows headers ds n).1 = (ds.map (rowLead headers)).filter isValidLead) ∧
    (∀ headers ds n,
      (processRows headers ds n).2 =
        (List.enumFrom n ds).filterMap fun p =>
          if isValidLead (rowLead headers p.2) then none else some (rowErrorMsg p.1)) ∧
    (∀ uid cid text dbError wh batch,
      (handleFileUpload uid cid text dbError wh).insertedBatch = some batch →
      ∃ leads errors, parseCSV text = ParseResult.ok leads errors ∧
        batch = leads.map (tagLead uid cid) ∧ ∀ l ∈ leads, isValidLead l = true) ∧
    parseCSV "company_name\nAcme".data =
      ParseResult.ok [] ["Row 2: Missing required data (name, phone, or email)".data] ∧
    parseCSV "phone\n555-0100".data =
      ParseResult.ok [{ phone := some "555-0100".data }] [] := by
  refine ⟨?_, ?_, ?_, by decide, by decide⟩
  · intro headers ds n
    rw [processRows_eq]
  · intro headers ds n
    rw [processRows_eq]
  · intro uid cid text dbError wh batch hb
    obtain ⟨leads, errors, hp, hbatch⟩ :=
      insertedBatch_shape uid cid text dbError wh batch hb
    exact ⟨leads, errors, hp, hbatch, parseCSV_leads_valid text leads errors hp⟩

/-- C3 witness: the valid-batch conjunct applied to the file "phone\n555",
whose single accepted lead is tagged and handed to the store. -/
theorem C3_minimum_field_invariant_witness :
    ∃ leads errors, parseCSV "phone\n555".data = ParseResult.ok leads errors ∧
      [tagLead "u".data "c".data { phone := some "555".data }] =
        leads.map (tagLead "u".data "c".data) ∧ ∀ l ∈ leads, isValidLead l = true :=
  C3_minimum_field_invariant.2.2.1 "u".data "c".data "phone\n555".data none
    (WebhookOutcome.responded 200)
    [tagLead "u".data "c".data { phone := some "555".data }] (by decide)

/-- C5: invalid rows are never fatal — accepted leads plus diagnostics
account for every data row — and for the concrete file with five data rows
whose second and fourth are invalid, exactly the three valid records are
handed to the store and exactly two diagnostics are produced, naming
retained lines 3 and 5. -/
theorem C5_partial_batch :
    (∀ headers ds n,
      (processRows headers ds n).1.length + (processRows headers ds n).2.length = ds.length) ∧
    parseCSV "name\nA1\n,\nA3\n,\nA5".data =
      ParseResult.ok
        [{ name := some "A1".data }, { name := some "A3".data }, { name := some "A5".data }]
        ["Row 3: Missing required data (name, phone, or email)".data,
         "Row 5: Missing required data (name, phone, or email)".data] ∧
    (∀ uid cid wh,
      (handleFileUpload uid cid "name\nA1\n,\nA3\n,\nA5".data none wh).insertedBatch =
        some [tagLead uid cid { name := some "A1".data },
              tagLead uid cid { name := some "A3".data },
              tagLead uid cid { name := some "A5".data }]) := by
  refine ⟨processRows_length, by decide, ?_⟩
  intro uid cid wh
  rfl

/-- C6: when the parse saw at least two retained lines but accepted no lead,
the orchestrator stops without contacting the store or the webhook and
reports the failure "No valid leads found in CSV file." with the
required-columns hint followed by the per-row diagnostics in order. -/
theorem C6_no_valid_records (uid cid text : Str) (dbError : Option Str) (wh : WebhookOutcome)
    (errors : List Str) (hp : parseCSV text = ParseResult.ok [] errors) :
    (handleFileUpload uid cid text dbError wh).dbCalled = false ∧
    (handleFileUpload uid cid text dbError wh).insertedBatch = none ∧
    (handleFileUpload uid cid text dbError wh).webhookCalled = false ∧
    (handleFileUpload uid cid text dbError wh).result.success = false ∧
    (handleFileUpload uid cid text dbError wh).result.message =
      "No valid leads found in CSV file.".data ∧
    (handleFileUpload uid cid text dbError wh).result.errors =
      some ("Please ensure your CSV has columns for name, phone, or email".data :: errors) := by
  refine ⟨?_, ?_, ?_, ?_, ?_, ?_⟩ <;> simp [handleFileUpload, hp]

/-- C6 witness: the file "name\n," has a header and one data line whose only
cell is empty, so the parse accepts nothing and the attempt reports the
no-valid-leads failure. -/
theorem C6_no_valid_records_witness :
    (handleFileUpload "u".data "c".data "name\n,".data none
        (WebhookOutcome.responded 200)).result.message =
      "No valid leads found in CSV file.".data ∧
    (handleFileUpload "u".data "c".data "name\n,".data none
        (WebhookOutcome.responded 200)).dbCalled = false :=
  ⟨(C6_no_valid_records "u".data "c".data "name\n,".data none (.responded 200)
      ["Row 2: Missing required data (name, phone, or email)".data] (by decide)).2.2.2.2.1,
   (C6_no_valid_records "u".data "c".data "name\n,".data none (.responded 200)
      ["Row 2: Missing required data (name, phone, or email)".data] (by decide)).1⟩

/-- C9: every record of any batch handed to the lead store carries the
submitting user's identifier, the target campaign's identifier, and the
fixed status "pending", whatever the file contained. -/
theorem C9_batch_tagging (uid cid text : Str) (dbError : Option Str) (wh : WebhookOutcome)
    (batch : List InsertedLead) (r : InsertedLead)
    (hb : (handleFileUpload uid cid text dbError wh).insertedBatch = some batch)
    (hr : r ∈ batch) :
    r.user_id = uid ∧ r.campaign_id = cid ∧ r.status = "pending".data := by
  obtain ⟨leads, errors, hp, hbatch⟩ := insertedBatch_shape uid cid text dbError wh batch hb
  subst hbatch
  obtain ⟨l, _, rfl⟩ := List.mem_map.mp hr
  exact ⟨rfl, rfl, rfl⟩

/-- C9 witness: the tagging theorem applied to the one-lead batch produced by
the file "name\nAlice" for user "u" and campaign "c". -/
theorem C9_batch_tagging_witness :
    (tagLead "u".data "c".data { name := some "Alice".data }).user_id = "u".data ∧
    (tagLead "u".data "c".data { name := some "Alice".data }).campaign_id = "c".data ∧
    (tagLead "u".data "c".data { name := some "Alice".data }).status = "pending".data :=
  C9_batch_tagging "u".data "c".data "name\nAlice".data none (.responded 200)
    [tagLead "u".data "c".data { name := some "Alice".data }]
    (tagLead "u".data "c".data { name := some "Alice".data })
    (by decide) (by decide)

end SalesAgent
